import Mathlib

/-!
Verification of the ultrafast-gltf-importer preprocessing pipeline
(`ultrafast-gltf-importer.py`) against its natural-language specification.

The Python source is shallowly embedded below.  Conventions of the
embedding:

* raw bytes are `List Nat` (each entry a byte value); `struct.unpack`
  of little-endian fields is modelled by `unpackLE`, which fails
  (like `struct.error`) when the requested slice is shorter than the
  field, mirroring Python slice-clamping plus `struct.unpack`'s size
  check;
* 32-bit float fields (positions, UVs) are kept as their 32-bit
  little-endian bit patterns (`Nat`); no claim depends on float
  arithmetic, only on counts and groupings;
* numbers appearing in the JSON document (transform components) are
  modelled as `ℚ`;
* filesystem paths are lists of path segments (`FPath := List String`);
* a raised-and-uncaught Python exception inside the per-document
  `try` block is modelled by `Except.error`; the surrounding
  `try/except` of `preprocess_gltf_file` converts it to `none`;
* the filesystem is an explicit `Env`: parsed `.gltf` documents
  (`none` marks a file whose JSON fails to parse), `.bin` contents,
  and the set of files consulted by `FPath.exists()` during texture
  resolution.
-/

/-! ## Bytes and little-endian decoding -/

/-- Raw binary file contents: a list of byte values. -/
abbrev Bytes := List Nat

/-- Little-endian value of a byte list (first byte least significant). -/
def leNat (bs : Bytes) : Nat := bs.foldr (fun b acc => b + 256 * acc) 0

/-- Models `struct.unpack` of an `n`-byte little-endian field at offset
`off`: Python's `bin_data[off:off+n]` clamps, and `struct.unpack` then
raises unless the slice has exactly `n` bytes, i.e. unless
`off + n ≤ len(bin_data)`. -/
def unpackLE (data : Bytes) (off n : Nat) : Option Nat :=
  if off + n ≤ data.length then some (leNat ((data.drop off).take n)) else none

/-- A vec3 of float32 bit patterns. -/
abbrev Vec3 := Nat × Nat × Nat

/-- A vec2 of float32 bit patterns. -/
abbrev Vec2 := Nat × Nat

/-- Models `struct.unpack('<fff', bin_data[off:off+12])`. -/
def unpack3f (data : Bytes) (off : Nat) : Option Vec3 := do
  let x ← unpackLE data off 4
  let y ← unpackLE data (off + 4) 4
  let z ← unpackLE data (off + 8) 4
  pure (x, y, z)

/-- Models `struct.unpack('<ff', bin_data[off:off+8])`. -/
def unpack2f (data : Bytes) (off : Nat) : Option Vec2 := do
  let u ← unpackLE data off 4
  let v ← unpackLE data (off + 4) 4
  pure (u, v)

/-! ## Paths -/

/-- A filesystem path, as a list of segments. -/
abbrev FPath := List String

/-- Split a character list on a separator (the behaviour of Python
`str.split(sep)`: empty pieces are kept, the empty string gives one
empty piece). -/
def splitOnChar (c : Char) : List Char → List (List Char)
  | [] => [[]]
  | a :: t =>
    match splitOnChar c t with
    | [] => [[a]]
    | h :: r => if a = c then [] :: h :: r else (a :: h) :: r

/-- Join character lists with a separator character. -/
def intercalateChar (c : Char) : List (List Char) → List Char
  | [] => []
  | [x] => x
  | x :: y :: t => x ++ c :: intercalateChar c (y :: t)

/-- Python `s.split(sep)` for a one-character separator. -/
def strSplitOn (s : String) (c : Char) : List String :=
  (splitOnChar c s.toList).map List.asString

/-- Python `s.endswith(suffix)`. -/
def strEndsWith (s suffix : String) : Bool :=
  List.isSuffixOf suffix.toList s.toList

/-- Models `base / uri` for a pathlib `Path`: the URI contributes one
segment per `/`-separated component. -/
def joinUri (base : FPath) (uri : String) : FPath := base ++ strSplitOn uri '/'

/-- Models `Path(uri).name`: the last `/`-separated component. -/
def uriName (uri : String) : String := ((strSplitOn uri '/').getLast?).getD ""

/-- Models `Path(p).stem`: filename without its last extension. -/
def pathStem (s : String) : String :=
  let parts := splitOnChar '.' s.toList
  if parts.length ≤ 1 then s else List.asString (intercalateChar '.' parts.dropLast)

/-- Last segment of a path (the filename). -/
def pathName (p : FPath) : String := (p.getLast?).getD ""

/-! ## 4x4 rational matrices (models Blender `mathutils.Matrix`) -/

/-- A 4x4 matrix over ℚ, row-major fields: `aij` is row `i`, column `j`. -/
structure Mat4 where
  a00 : ℚ
  a01 : ℚ
  a02 : ℚ
  a03 : ℚ
  a10 : ℚ
  a11 : ℚ
  a12 : ℚ
  a13 : ℚ
  a20 : ℚ
  a21 : ℚ
  a22 : ℚ
  a23 : ℚ
  a30 : ℚ
  a31 : ℚ
  a32 : ℚ
  a33 : ℚ
deriving DecidableEq, Repr

/-- Matrix multiplication `A @ B` of `mathutils.Matrix`. -/
def Mat4.mul (A B : Mat4) : Mat4 :=
  { a00 := A.a00 * B.a00 + A.a01 * B.a10 + A.a02 * B.a20 + A.a03 * B.a30
    a01 := A.a00 * B.a01 + A.a01 * B.a11 + A.a02 * B.a21 + A.a03 * B.a31
    a02 := A.a00 * B.a02 + A.a01 * B.a12 + A.a02 * B.a22 + A.a03 * B.a32
    a03 := A.a00 * B.a03 + A.a01 * B.a13 + A.a02 * B.a23 + A.a03 * B.a33
    a10 := A.a10 * B.a00 + A.a11 * B.a10 + A.a12 * B.a20 + A.a13 * B.a30
    a11 := A.a10 * B.a01 + A.a11 * B.a11 + A.a12 * B.a21 + A.a13 * B.a31
    a12 := A.a10 * B.a02 + A.a11 * B.a12 + A.a12 * B.a22 + A.a13 * B.a32
    a13 := A.a10 * B.a03 + A.a11 * B.a13 + A.a12 * B.a23 + A.a13 * B.a33
    a20 := A.a20 * B.a00 + A.a21 * B.a10 + A.a22 * B.a20 + A.a23 * B.a30
    a21 := A.a20 * B.a01 + A.a21 * B.a11 + A.a22 * B.a21 + A.a23 * B.a31
    a22 := A.a20 * B.a02 + A.a21 * B.a12 + A.a22 * B.a22 + A.a23 * B.a32
    a23 := A.a20 * B.a03 + A.a21 * B.a13 + A.a22 * B.a23 + A.a23 * B.a33
    a30 := A.a30 * B.a00 + A.a31 * B.a10 + A.a32 * B.a20 + A.a33 * B.a30
    a31 := A.a30 * B.a01 + A.a31 * B.a11 + A.a32 * B.a21 + A.a33 * B.a31
    a32 := A.a30 * B.a02 + A.a31 * B.a12 + A.a32 * B.a22 + A.a33 * B.a32
    a33 := A.a30 * B.a03 + A.a31 * B.a13 + A.a32 * B.a23 + A.a33 * B.a33 }

/-- `Matrix.Identity(4)`. -/
def mat4Identity : Mat4 :=
  { a00 := 1, a01 := 0, a02 := 0, a03 := 0
    a10 := 0, a11 := 1, a12 := 0, a13 := 0
    a20 := 0, a21 := 0, a22 := 1, a23 := 0
    a30 := 0, a31 := 0, a32 := 0, a33 := 1 }

/-- `Matrix.Translation(Vector((x, y, z)))`. -/
def translationMat (x y z : ℚ) : Mat4 :=
  { a00 := 1, a01 := 0, a02 := 0, a03 := x
    a10 := 0, a11 := 1, a12 := 0, a13 := y
    a20 := 0, a21 := 0, a22 := 1, a23 := z
    a30 := 0, a31 := 0, a32 := 0, a33 := 1 }

/-- The scale matrix built in `parse_transform`: `Matrix.Identity(4)`
with the three diagonal entries overwritten by the scale components. -/
def scaleMat (x y z : ℚ) : Mat4 :=
  { a00 := x, a01 := 0, a02 := 0, a03 := 0
    a10 := 0, a11 := y, a12 := 0, a13 := 0
    a20 := 0, a21 := 0, a22 := z, a23 := 0
    a30 := 0, a31 := 0, a32 := 0, a33 := 1 }

/-- `Quaternion((w, x, y, z)).to_matrix().to_4x4()`: the standard
rotation matrix of a unit quaternion given in `(w, x, y, z)` order
(the order Blender's constructor expects), embedded as a 4x4 with
identity last row/column. -/
def quatToMat4 (w x y z : ℚ) : Mat4 :=
  { a00 := 1 - 2 * (y * y + z * z), a01 := 2 * (x * y - w * z)
    a02 := 2 * (x * z + w * y), a03 := 0
    a10 := 2 * (x * y + w * z), a11 := 1 - 2 * (x * x + z * z)
    a12 := 2 * (y * z - w * x), a13 := 0
    a20 := 2 * (x * z - w * y), a21 := 2 * (y * z + w * x)
    a22 := 1 - 2 * (x * x + y * y), a23 := 0
    a30 := 0, a31 := 0, a32 := 0, a33 := 1 }

/-- `Matrix([m[0:4], m[4:8], m[8:12], m[12:16]]).transposed()`: the
rows are consecutive quadruples of the 16-element list, then the whole
matrix is transposed (glTF stores matrices column-major), so entry
`(i, j)` of the result is `m[4*j + i]`. -/
def matrixFromColumnMajor (m : List ℚ) : Mat4 :=
  { a00 := m.getD 0 0, a01 := m.getD 4 0, a02 := m.getD 8 0, a03 := m.getD 12 0
    a10 := m.getD 1 0, a11 := m.getD 5 0, a12 := m.getD 9 0, a13 := m.getD 13 0
    a20 := m.getD 2 0, a21 := m.getD 6 0, a22 := m.getD 10 0, a23 := m.getD 14 0
    a30 := m.getD 3 0, a31 := m.getD 7 0, a32 := m.getD 11 0, a33 := m.getD 15 0 }

/-! ## Transforms -/

/-- The per-node transform dictionary collected by the preprocessor:
every key is optional (absent key = field not in the dict).  The
rotation quaternion is stored in glTF `(x, y, z, w)` order. -/
structure Transform where
  matrix : Option (List ℚ)
  translation : Option (ℚ × ℚ × ℚ)
  rotation : Option (ℚ × ℚ × ℚ × ℚ)
  scale : Option (ℚ × ℚ × ℚ)
deriving DecidableEq, Repr

/-- The empty transform dictionary. -/
def Transform.empty : Transform :=
  { matrix := none, translation := none, rotation := none, scale := none }

/-- Embedding of `parse_transform` (source lines 251-270).  If a
matrix is present it is used alone (transposed from column-major).
Otherwise the code starts from the identity and successively
left-multiplies the present TRS parts: translation first, then
rotation, then scale, producing `S @ R @ T`.  The quaternion is
reordered from glTF `(x, y, z, w)` to Blender `(w, x, y, z)`. -/
def parse_transform (t : Transform) : Mat4 :=
  match t.matrix with
  | some m => matrixFromColumnMajor m
  | none =>
    let mat := mat4Identity
    let mat := match t.translation with
      | some (x, y, z) => (translationMat x y z).mul mat
      | none => mat
    let mat := match t.rotation with
      | some (qx, qy, qz, qw) => (quatToMat4 qw qx qy qz).mul mat
      | none => mat
    let mat := match t.scale with
      | some (sx, sy, sz) => (scaleMat sx sy sz).mul mat
      | none => mat
    mat

/-! ## glTF document data model

Mirrors the JSON shape consumed by `preprocess_gltf_file`.  Fields the
code reads with `dict[...]` (raising `KeyError` when absent) and whose
absence matters to a claim are `Option`s whose `none` raises in the
embedding; fields read with `.get(key, default)` are `Option`s read
with `getD`; top-level arrays read with `.get(key, [])` are plain
lists (a missing key behaves as the empty list). -/

/-- A glTF accessor.  `bufferView`, `count` and (for index accessors)
`componentType` are read with `[...]`; `byteOffset` with `.get(..., 0)`. -/
structure Accessor where
  bufferView : Nat
  byteOffset : Option Nat
  count : Nat
  componentType : Nat
deriving DecidableEq, Repr

/-- A glTF bufferView; both fields are read with `.get`. -/
structure BufferView where
  byteOffset : Option Nat
  byteStride : Option Nat
deriving DecidableEq, Repr

/-- The `attributes` dict of a primitive; membership of the two keys
the code consults is modelled by `Option`. -/
structure Attributes where
  POSITION : Option Nat
  TEXCOORD_0 : Option Nat
deriving DecidableEq, Repr

/-- A mesh primitive. -/
structure Primitive where
  attributes : Attributes
  indices : Option Nat
  material : Option Nat
deriving DecidableEq, Repr

/-- A glTF mesh: the code reads `mesh['primitives']` unconditionally. -/
structure Mesh where
  primitives : List Primitive
deriving DecidableEq, Repr

/-- `baseColorTexture` info: the code reads `['index']`, raising
`KeyError` if the key is absent. -/
structure TextureInfo where
  index : Option Nat
deriving DecidableEq, Repr

/-- `pbrMetallicRoughness`: `baseColorTexture` membership is tested
with `in`. -/
structure Pbr where
  baseColorTexture : Option TextureInfo
deriving DecidableEq, Repr

/-- A glTF material: `pbrMetallicRoughness` is read with
`.get(..., an-empty-dict)`. -/
structure Material where
  pbrMetallicRoughness : Option Pbr
deriving DecidableEq, Repr

/-- A glTF texture: the code reads `['source']` (raises if absent). -/
structure Texture where
  source : Option Nat
deriving DecidableEq, Repr

/-- A glTF image: the code reads `['uri']` (raises if absent). -/
structure Image where
  uri : Option String
deriving DecidableEq, Repr

/-- A glTF buffer entry; `uri` membership is tested with `in`. -/
structure GBuffer where
  uri : Option String
deriving DecidableEq, Repr

/-- A glTF node: `mesh` and the four transform keys are each tested
with `in`. -/
structure Node where
  mesh : Option Nat
  matrix : Option (List ℚ)
  translation : Option (ℚ × ℚ × ℚ)
  rotation : Option (ℚ × ℚ × ℚ × ℚ)
  scale : Option (ℚ × ℚ × ℚ)
deriving DecidableEq, Repr

/-- A parsed glTF JSON document.  `buffers`, `nodes` and `meshes`
membership is tested with `in` (hence `Option`); `accessors` and
`bufferViews` are indexed with `[...]`; `materials`, `textures` and
`images` are read with `.get(key, [])`, which a plain list models. -/
structure GltfDocument where
  buffers : Option (List GBuffer)
  bufferViews : List BufferView
  accessors : List Accessor
  meshes : Option (List Mesh)
  nodes : Option (List Node)
  materials : List Material
  textures : List Texture
  images : List Image
deriving DecidableEq, Repr

/-! ## Cache data model -/

/-- One mesh record of the cache (the dict appended at source
lines 174-180). -/
structure MeshRecord where
  verts : List Vec3
  faces : List (Nat × Nat × Nat)
  uvs : List Vec2
  texture_path : Option FPath
  transform : Transform
deriving DecidableEq, Repr

/-- One cache entry (the `mesh_cache` dict of one document). -/
structure CacheEntry where
  name : String
  meshes : List MeshRecord
deriving DecidableEq, Repr

/-! ## Environment (filesystem) -/

/-- The filesystem visible to the preprocessor: `.gltf` files with
their parse result (`none` = the JSON fails to parse, so `json.load`
raises), `.bin` files with their contents, and the set of paths that
`Path.exists()` reports present during texture resolution. -/
structure Env where
  docs : List (FPath × Option GltfDocument)
  bins : List (FPath × Bytes)
  texFiles : List FPath

/-- `Path.exists()` for texture candidates. -/
def Env.fileExists (env : Env) (p : FPath) : Bool := env.texFiles.contains p

/-! ## Monadic helpers -/

/-- Python list indexing `l[i]` (raises `IndexError` out of range). -/
def listGetE (l : List α) (i : Nat) : Except String α :=
  match l.get? i with
  | some a => Except.ok a
  | none => Except.error "IndexError"

/-- Lift an `Option` produced by `struct.unpack` into the exception
monad (`none` = `struct.error`). -/
def structE (o : Option α) : Except String α :=
  match o with
  | some a => Except.ok a
  | none => Except.error "struct.error"

/-- Effectful map over a list, failing on the first failure —
the shape of every decoding `for` loop in the source. -/
def mapE (f : α → Except String β) : List α → Except String (List β)
  | [] => Except.ok []
  | a :: t => do
    let b ← f a
    let r ← mapE f t
    Except.ok (b :: r)

/-! ## Accessor decoding (source lines 86-128) -/

/-- Positions loop (lines 93-97): `count` reads of `'<fff'` at
`pos_offset + i * stride`. -/
def decode_vec3_array (bd : Bytes) (off stride count : Nat) :
    Except String (List Vec3) :=
  mapE (fun i => structE (unpack3f bd (off + i * stride))) (List.range count)

/-- UV loop (lines 107-110): `count` reads of `'<ff'` at
`uv_offset_base + i * uv_stride`. -/
def decode_vec2_array (bd : Bytes) (off stride count : Nat) :
    Except String (List Vec2) :=
  mapE (fun i => structE (unpack2f bd (off + i * stride))) (List.range count)

/-- Index decoding (lines 119-128): componentType 5123 reads 2-byte
values at `idx_offset + 2*i`, 5125 reads 4-byte values at
`idx_offset + 4*i`; any other componentType takes neither branch and
leaves the index list empty. -/
def decode_indices (bd : Bytes) (idx_offset idx_count ctype : Nat) :
    Except String (List Nat) :=
  if ctype = 5123 then
    mapE (fun i => structE (unpackLE bd (idx_offset + i * 2) 2)) (List.range idx_count)
  else if ctype = 5125 then
    mapE (fun i => structE (unpackLE bd (idx_offset + i * 4) 4)) (List.range idx_count)
  else
    Except.ok []

/-! ## Face assembly (source lines 130-136) -/

/-- The indexed-face loop `for i in range(0, len(indices), 3):
faces.append((indices[i], indices[i+1], indices[i+2]))`, written by
structural recursion on the list: each full triple becomes a face; a
trailing partial triple makes `indices[i+1]` or `indices[i+2]` raise
`IndexError` (`none`). -/
def faces_from_indices : List Nat → Option (List (Nat × Nat × Nat))
  | [] => some []
  | a :: b :: c :: t => (faces_from_indices t).map (fun fs => (a, b, c) :: fs)
  | _ => none

/-- Python `range(0, n, 3)`: the ⌈n/3⌉ values 0, 3, 6, …. -/
def rangeStep3 (n : Nat) : List Nat := (List.range ((n + 2) / 3)).map (fun k => 3 * k)

/-- The non-indexed loop `for i in range(0, len(positions), 3):
faces.append((i, i+1, i+2))` — note the final triple is appended even
when fewer than 3 positions remain. -/
def synthesized_faces (n : Nat) : List (Nat × Nat × Nat) :=
  (rangeStep3 n).map (fun i => (i, i + 1, i + 2))

/-- Lines 130-136: `if indices:` (truthiness = non-emptiness) groups
the decoded indices into triples, else synthesizes faces from the
position count. -/
def assemble_faces (indices : List Nat) (numPositions : Nat) :
    Except String (List (Nat × Nat × Nat)) :=
  if indices.isEmpty then Except.ok (synthesized_faces numPositions)
  else
    match faces_from_indices indices with
    | some fs => Except.ok fs
    | none => Except.error "IndexError"

/-! ## Texture resolution (source lines 138-172) -/

/-- Texture lookup for one primitive.  The chain is
`primitive.material` → bounds-checked `materials[mat_idx]` →
`.get('pbrMetallicRoughness', an-empty-dict)` → `'baseColorTexture' in pbr`
→ `['index']` (raises) → bounds-checked `textures[tex_idx]` →
`['source']` (raises) → bounds-checked `images[img_idx]` → `['uri']`
(raises) → existence checks in the order texture-folder/uri,
texture-folder/filename, gltf-folder/uri.  A failed bounds check or a
broken optional link leaves `texture_path = None`; a missing required
key raises, killing the whole document. -/
def find_texture_path (env : Env) (doc : GltfDocument)
    (docDir tex_folder : FPath) (prim : Primitive) :
    Except String (Option FPath) :=
  match prim.material with
  | none => Except.ok none
  | some mat_idx =>
    match doc.materials.get? mat_idx with
    | none => Except.ok none
    | some mat =>
      let pbr := mat.pbrMetallicRoughness.getD { baseColorTexture := none }
      match pbr.baseColorTexture with
      | none => Except.ok none
      | some bct =>
        match bct.index with
        | none => Except.error "KeyError"
        | some tex_idx =>
          match doc.textures.get? tex_idx with
          | none => Except.ok none
          | some tex =>
            match tex.source with
            | none => Except.error "KeyError"
            | some img_idx =>
              match doc.images.get? img_idx with
              | none => Except.ok none
              | some img =>
                match img.uri with
                | none => Except.error "KeyError"
                | some uri =>
                  let check_local := joinUri docDir uri
                  let check_tex_folder := joinUri tex_folder uri
                  let check_flat := tex_folder ++ [uriName uri]
                  Except.ok
                    (if env.fileExists check_tex_folder then some check_tex_folder
                     else if env.fileExists check_flat then some check_flat
                     else if env.fileExists check_local then some check_local
                     else none)

/-! ## Node transforms (source lines 66-77) -/

/-- The transform dict built from one node's present keys. -/
def transformOfNode (n : Node) : Transform :=
  { matrix := n.matrix, translation := n.translation
    rotation := n.rotation, scale := n.scale }

/-- Python dict assignment `d[k] = v` on an association list. -/
def dictSet (d : List (Nat × Transform)) (k : Nat) (v : Transform) :
    List (Nat × Transform) :=
  if d.any (fun p => p.1 = k) then
    d.map (fun p => if p.1 = k then (k, v) else p)
  else d ++ [(k, v)]

/-- Python `d.get(k)` returning `None` when absent. -/
def dictGet (d : List (Nat × Transform)) (k : Nat) : Option Transform :=
  (d.find? (fun p => p.1 = k)).map (fun p => p.2)

/-- Lines 66-77: scan `nodes` (an absent key scans nothing) and record
each node carrying a `mesh` key under its mesh index, later
assignments overwriting earlier ones. -/
def build_node_transforms (nodes : Option (List Node)) :
    List (Nat × Transform) :=
  (nodes.getD []).foldl
    (fun acc n =>
      match n.mesh with
      | some mesh_idx => dictSet acc mesh_idx (transformOfNode n)
      | none => acc)
    []

/-! ## Per-primitive processing (source lines 83-180) -/

/-- UV extraction for one primitive (lines 99-110): empty when
`TEXCOORD_0` is absent, else `count` decoded pairs (the POSITION
accessor's count drives the loop). -/
def decode_prim_uvs (doc : GltfDocument) (bd : Bytes)
    (texcoord : Option Nat) (count : Nat) : Except String (List Vec2) :=
  match texcoord with
  | none => Except.ok []
  | some uvIdx => do
    let uv_acc ← listGetE doc.accessors uvIdx
    let uv_view ← listGetE doc.bufferViews uv_acc.bufferView
    let uv_offset_base := uv_view.byteOffset.getD 0 + uv_acc.byteOffset.getD 0
    let uv_stride := uv_view.byteStride.getD 8
    decode_vec2_array bd uv_offset_base uv_stride count

/-- Index extraction for one primitive (lines 112-128): empty when the
`indices` key is absent, else the decoded index list. -/
def decode_prim_indices (doc : GltfDocument) (bd : Bytes)
    (indicesRef : Option Nat) : Except String (List Nat) :=
  match indicesRef with
  | none => Except.ok []
  | some idxRef => do
    let idx_acc ← listGetE doc.accessors idxRef
    let idx_view ← listGetE doc.bufferViews idx_acc.bufferView
    let idx_offset := idx_view.byteOffset.getD 0 + idx_acc.byteOffset.getD 0
    decode_indices bd idx_offset idx_acc.count idx_acc.componentType

/-- Processing of a single primitive: skip when `POSITION` is absent
(line 84), otherwise decode positions (86-97), UVs (99-110), indices
(112-128), assemble faces (130-136), look up a texture (138-172) and
build the record appended at lines 174-180 (`transform` is
`node_transforms.get(mesh_idx, an-empty-dict)`). -/
def process_primitive (env : Env) (doc : GltfDocument)
    (docDir tex_folder : FPath) (bd : Bytes)
    (node_transforms : List (Nat × Transform)) (mesh_idx : Nat)
    (prim : Primitive) : Except String (Option MeshRecord) :=
  match prim.attributes.POSITION with
  | none => Except.ok none
  | some posIdx => do
    let pos_acc ← listGetE doc.accessors posIdx
    let pos_view ← listGetE doc.bufferViews pos_acc.bufferView
    let pos_offset := pos_view.byteOffset.getD 0 + pos_acc.byteOffset.getD 0
    let stride := pos_view.byteStride.getD 12
    let count := pos_acc.count
    let positions ← decode_vec3_array bd pos_offset stride count
    let uvs ← decode_prim_uvs doc bd prim.attributes.TEXCOORD_0 count
    let indices ← decode_prim_indices doc bd prim.indices
    let faces ← assemble_faces indices positions.length
    let texture_path ← find_texture_path env doc docDir tex_folder prim
    Except.ok (some
      { verts := positions, faces := faces, uvs := uvs
        texture_path := texture_path
        transform := (dictGet node_transforms mesh_idx).getD Transform.empty })

/-- Inner loop over one mesh's primitives, keeping records in order. -/
def process_primitives (env : Env) (doc : GltfDocument)
    (docDir tex_folder : FPath) (bd : Bytes)
    (node_transforms : List (Nat × Transform)) (mesh_idx : Nat) :
    List Primitive → Except String (List MeshRecord)
  | [] => Except.ok []
  | p :: t => do
    let h ← process_primitive env doc docDir tex_folder bd node_transforms mesh_idx p
    let rest ← process_primitives env doc docDir tex_folder bd node_transforms mesh_idx t
    Except.ok (match h with | none => rest | some r => r :: rest)

/-- Outer loop `for mesh_idx, mesh in enumerate(gltf_data['meshes'])`. -/
def process_meshes (env : Env) (doc : GltfDocument)
    (docDir tex_folder : FPath) (bd : Bytes)
    (node_transforms : List (Nat × Transform)) :
    Nat → List Mesh → Except String (List MeshRecord)
  | _, [] => Except.ok []
  | mesh_idx, m :: t => do
    let rs ← process_primitives env doc docDir tex_folder bd node_transforms mesh_idx m.primitives
    let rest ← process_meshes env doc docDir tex_folder bd node_transforms (mesh_idx + 1) t
    Except.ok (rs ++ rest)

/-! ## Binary buffer loading (source lines 46-56) -/

/-- Scan `buffers` for the first entry whose `uri` resolves (relative
to the document's directory) to an existing `.bin` file, read it and
stop (`break`); entries without `uri` or whose file is absent are
skipped. -/
def load_bin_data (env : Env) (parent : FPath) :
    List GBuffer → Option Bytes
  | [] => none
  | b :: rest =>
    match b.uri with
    | some uri =>
      match env.bins.lookup (joinUri parent uri) with
      | some data => some data
      | none => load_bin_data env parent rest
    | none => load_bin_data env parent rest

/-! ## Whole-document preprocessing (source lines 38-186) -/

/-- The body of the `try` block of `preprocess_gltf_file`:
open+`json.load` (raises on a missing or malformed file), load the
binary buffer, bail out with `None` when `not bin_data` (no buffer
found, or an empty file), collect node transforms, bail out with
`None` when `'meshes' not in gltf_data`, then process every mesh and
return the `mesh_cache` dict named after the document's stem. -/
def preprocess_body (env : Env) (tex_folder gltf_path : FPath) :
    Except String (Option CacheEntry) := do
  let doc ← match env.docs.lookup gltf_path with
    | some (some d) => Except.ok d
    | some none => Except.error "JSONDecodeError"
    | none => Except.error "FileNotFoundError"
  let bin_data := load_bin_data env gltf_path.dropLast (doc.buffers.getD [])
  match bin_data with
  | none => Except.ok none
  | some bd =>
    if bd.isEmpty then Except.ok none
    else do
      let node_transforms := build_node_transforms doc.nodes
      match doc.meshes with
      | none => Except.ok none
      | some meshes => do
        let recs ← process_meshes env doc gltf_path.dropLast tex_folder bd
          node_transforms 0 meshes
        Except.ok (some { name := pathStem (pathName gltf_path), meshes := recs })

/-- `preprocess_gltf_file` (lines 38-186): the surrounding
`try/except Exception` converts any raised error into `None`. -/
def preprocess_gltf_file (env : Env) (tex_folder gltf_path : FPath) :
    Option CacheEntry :=
  match preprocess_body env tex_folder gltf_path with
  | Except.ok r => r
  | Except.error _ => none

/-! ## Batch build (source lines 188-206) -/

/-- Lexicographic order on character lists (Python string `<=`). -/
def listCharLe : List Char → List Char → Bool
  | [], _ => true
  | _ :: _, [] => false
  | a :: s, b :: t =>
    if a.val.toNat < b.val.toNat then true
    else if b.val.toNat < a.val.toNat then false
    else listCharLe s t

/-- `str(f)` of a path: its segments joined by `/`. -/
def pathKey (p : FPath) : List Char := intercalateChar '/' (p.map String.toList)

/-- Insert into a sorted list of paths. -/
def insertSorted (x : FPath) : List FPath → List FPath
  | [] => [x]
  | y :: t => if listCharLe (pathKey x) (pathKey y) then x :: y :: t else y :: insertSorted x t

/-- Sort paths by their string form. -/
def sortPaths : List FPath → List FPath
  | [] => []
  | x :: t => insertSorted x (sortPaths t)

/-- `sorted(str(f) for f in Path(gltf_folder).glob("*.gltf"))`:
the document paths directly inside `gltf_folder` whose filename ends
in `.gltf`, sorted by their string form. -/
def gltf_files_of (env : Env) (gltf_folder : FPath) : List FPath :=
  sortPaths ((env.docs.map Prod.fst).filter
    (fun p => p.dropLast == gltf_folder && strEndsWith (pathName p) ".gltf"))

/-- `build_cache` (lines 188-203) up to serialization: preprocess each
document in sorted order and keep the truthy results (a returned
`mesh_cache` dict is always non-empty, hence truthy, so the `if data:`
filter keeps exactly the non-`None` results). -/
def build_cache (env : Env) (gltf_folder tex_folder : FPath) : List CacheEntry :=
  (gltf_files_of env gltf_folder).filterMap (preprocess_gltf_file env tex_folder)

/-! ## Cache serialization (source lines 200-203 and 278-279)

`build_cache` pickles the entry list into one artifact and
`bulk_import` unpickles it.  Pickle is an external library whose
contract on this data (nested lists/tuples/dicts of strings and
numbers) is exact round-tripping; it is modelled here by an explicit,
executable token codec for the cache data model, so that the
round-trip property is a theorem rather than an assumption. -/

/-- One token of the serialized artifact. -/
inductive Tok where
  | n (v : Nat)
  | s (v : String)
  | q (v : ℚ)
deriving DecidableEq, Repr

def encNat (v : Nat) : List Tok := [Tok.n v]

def encStr (v : String) : List Tok := [Tok.s v]

def encRat (v : ℚ) : List Tok := [Tok.q v]

/-- Length-prefixed list encoding. -/
def encList (f : α → List Tok) (l : List α) : List Tok :=
  Tok.n l.length :: (l.map f).flatten

/-- Tagged option encoding. -/
def encOpt (f : α → List Tok) : Option α → List Tok
  | none => [Tok.n 0]
  | some a => Tok.n 1 :: f a

def encVec3 (v : Vec3) : List Tok := encNat v.1 ++ encNat v.2.1 ++ encNat v.2.2

def encVec2 (v : Vec2) : List Tok := encNat v.1 ++ encNat v.2

def encQ3 (v : ℚ × ℚ × ℚ) : List Tok := encRat v.1 ++ encRat v.2.1 ++ encRat v.2.2

def encQ4 (v : ℚ × ℚ × ℚ × ℚ) : List Tok :=
  encRat v.1 ++ encRat v.2.1 ++ encRat v.2.2.1 ++ encRat v.2.2.2

def encPathT (p : FPath) : List Tok := encList encStr p

def encTransform (t : Transform) : List Tok :=
  encOpt (encList encRat) t.matrix ++ encOpt encQ3 t.translation ++
    encOpt encQ4 t.rotation ++ encOpt encQ3 t.scale

def encRecord (r : MeshRecord) : List Tok :=
  encList encVec3 r.verts ++ encList encVec3 r.faces ++ encList encVec2 r.uvs ++
    encOpt encPathT r.texture_path ++ encTransform r.transform

def encEntry (e : CacheEntry) : List Tok :=
  encStr e.name ++ encList encRecord e.meshes

/-- `saveCache`: serialize the built cache into one artifact. -/
def saveCache (c : List CacheEntry) : List Tok := encList encEntry c

def decNat : List Tok → Option (Nat × List Tok)
  | Tok.n v :: r => some (v, r)
  | _ => none

def decStr : List Tok → Option (String × List Tok)
  | Tok.s v :: r => some (v, r)
  | _ => none

def decRat : List Tok → Option (ℚ × List Tok)
  | Tok.q v :: r => some (v, r)
  | _ => none

/-- Decode exactly `k` elements. -/
def decCount (f : List Tok → Option (α × List Tok)) :
    Nat → List Tok → Option (List α × List Tok)
  | 0, ts => some ([], ts)
  | Nat.succ k, ts => do
    let (a, ts1) ← f ts
    let (l, ts2) ← decCount f k ts1
    pure (a :: l, ts2)

def decList (f : List Tok → Option (α × List Tok)) (ts : List Tok) :
    Option (List α × List Tok) := do
  let (k, ts1) ← decNat ts
  decCount f k ts1

def decOpt (f : List Tok → Option (α × List Tok)) (ts : List Tok) :
    Option (Option α × List Tok) := do
  let (tag, ts1) ← decNat ts
  if tag = 0 then pure (none, ts1)
  else do
    let (a, ts2) ← f ts1
    pure (some a, ts2)

def decVec3 (ts : List Tok) : Option (Vec3 × List Tok) := do
  let (x, ts1) ← decNat ts
  let (y, ts2) ← decNat ts1
  let (z, ts3) ← decNat ts2
  pure ((x, y, z), ts3)

def decVec2 (ts : List Tok) : Option (Vec2 × List Tok) := do
  let (u, ts1) ← decNat ts
  let (v, ts2) ← decNat ts1
  pure ((u, v), ts2)

def decQ3 (ts : List Tok) : Option ((ℚ × ℚ × ℚ) × List Tok) := do
  let (x, ts1) ← decRat ts
  let (y, ts2) ← decRat ts1
  let (z, ts3) ← decRat ts2
  pure ((x, y, z), ts3)

def decQ4 (ts : List Tok) : Option ((ℚ × ℚ × ℚ × ℚ) × List Tok) := do
  let (x, ts1) ← decRat ts
  let (y, ts2) ← decRat ts1
  let (z, ts3) ← decRat ts2
  let (w, ts4) ← decRat ts3
  pure ((x, y, z, w), ts4)

def decPathT (ts : List Tok) : Option (FPath × List Tok) := decList decStr ts

def decTransform (ts : List Tok) : Option (Transform × List Tok) := do
  let (m, ts1) ← decOpt (decList decRat) ts
  let (tr, ts2) ← decOpt decQ3 ts1
  let (ro, ts3) ← decOpt decQ4 ts2
  let (sc, ts4) ← decOpt decQ3 ts3
  pure (({ matrix := m, translation := tr, rotation := ro, scale := sc } : Transform), ts4)

def decRecord (ts : List Tok) : Option (MeshRecord × List Tok) := do
  let (verts, ts1) ← decList decVec3 ts
  let (faces, ts2) ← decList decVec3 ts1
  let (uvs, ts3) ← decList decVec2 ts2
  let (tp, ts4) ← decOpt decPathT ts3
  let (tr, ts5) ← decTransform ts4
  pure (({ verts := verts, faces := faces, uvs := uvs, texture_path := tp
           transform := tr } : MeshRecord), ts5)

def decEntry (ts : List Tok) : Option (CacheEntry × List Tok) := do
  let (name, ts1) ← decStr ts
  let (meshes, ts2) ← decList decRecord ts1
  pure (({ name := name, meshes := meshes } : CacheEntry), ts2)

/-- `loadCache`: deserialize an artifact; fails (CorruptCache) unless
the whole artifact decodes to an entry list with nothing left over. -/
def loadCache (ts : List Tok) : Option (List CacheEntry) :=
  match decList decEntry ts with
  | some (c, []) => some c
  | _ => none

/-! ## Codec round-trip lemmas -/

theorem decNat_encNat (v : Nat) (r : List Tok) :
    decNat (encNat v ++ r) = some (v, r) := rfl

theorem decStr_encStr (v : String) (r : List Tok) :
    decStr (encStr v ++ r) = some (v, r) := rfl

theorem decRat_encRat (v : ℚ) (r : List Tok) :
    decRat (encRat v ++ r) = some (v, r) := rfl

theorem decCount_enc {α : Type} (ef : α → List Tok)
    (df : List Tok → Option (α × List Tok))
    (hf : ∀ a r, df (ef a ++ r) = some (a, r)) :
    ∀ (l : List α) (r : List Tok),
      decCount df l.length ((l.map ef).flatten ++ r) = some (l, r) := by
  intro l
  induction l with
  | nil => intro r; rfl
  | cons a t ih =>
    intro r
    simp only [List.map_cons, List.flatten_cons, List.length_cons,
      List.append_assoc, decCount, hf, Option.bind_eq_bind, Option.some_bind, ih]
    rfl

theorem decList_enc {α : Type} (ef : α → List Tok)
    (df : List Tok → Option (α × List Tok))
    (hf : ∀ a r, df (ef a ++ r) = some (a, r)) :
    ∀ (l : List α) (r : List Tok),
      decList df (encList ef l ++ r) = some (l, r) := by
  intro l r
  simp only [decList, encList, List.cons_append, decNat,
    Option.bind_eq_bind, Option.some_bind, decCount_enc ef df hf]

theorem decOpt_enc {α : Type} (ef : α → List Tok)
    (df : List Tok → Option (α × List Tok))
    (hf : ∀ a r, df (ef a ++ r) = some (a, r)) :
    ∀ (o : Option α) (r : List Tok),
      decOpt df (encOpt ef o ++ r) = some (o, r) := by
  intro o r
  cases o with
  | none => rfl
  | some a =>
    simp only [encOpt, decOpt, List.cons_append, decNat,
      Option.bind_eq_bind, Option.some_bind, hf]
    rfl

theorem decVec3_encVec3 (v : Vec3) (r : List Tok) :
    decVec3 (encVec3 v ++ r) = some (v, r) := by
  obtain ⟨x, y, z⟩ := v
  rfl

theorem decVec2_encVec2 (v : Vec2) (r : List Tok) :
    decVec2 (encVec2 v ++ r) = some (v, r) := by
  obtain ⟨u, w⟩ := v
  rfl

theorem decQ3_encQ3 (v : ℚ × ℚ × ℚ) (r : List Tok) :
    decQ3 (encQ3 v ++ r) = some (v, r) := by
  obtain ⟨x, y, z⟩ := v
  rfl

theorem decQ4_encQ4 (v : ℚ × ℚ × ℚ × ℚ) (r : List Tok) :
    decQ4 (encQ4 v ++ r) = some (v, r) := by
  obtain ⟨x, y, z, w⟩ := v
  rfl

theorem decPathT_encPathT (p : FPath) (r : List Tok) :
    decPathT (encPathT p ++ r) = some (p, r) :=
  decList_enc encStr decStr decStr_encStr p r

theorem decTransform_encTransform (t : Transform) (r : List Tok) :
    decTransform (encTransform t ++ r) = some (t, r) := by
  obtain ⟨m, tr, ro, sc⟩ := t
  simp only [encTransform, decTransform, List.append_assoc,
    Option.bind_eq_bind, Option.some_bind,
    decOpt_enc (encList encRat) (decList decRat) (decList_enc encRat decRat decRat_encRat),
    decOpt_enc encQ3 decQ3 decQ3_encQ3,
    decOpt_enc encQ4 decQ4 decQ4_encQ4]
  rfl

theorem decRecord_encRecord (m : MeshRecord) (r : List Tok) :
    decRecord (encRecord m ++ r) = some (m, r) := by
  obtain ⟨verts, faces, uvs, tp, tr⟩ := m
  simp only [encRecord, decRecord, List.append_assoc,
    Option.bind_eq_bind, Option.some_bind,
    decList_enc encVec3 decVec3 decVec3_encVec3,
    decList_enc encVec2 decVec2 decVec2_encVec2,
    decOpt_enc encPathT decPathT decPathT_encPathT,
    decTransform_encTransform]
  rfl

theorem decEntry_encEntry (e : CacheEntry) (r : List Tok) :
    decEntry (encEntry e ++ r) = some (e, r) := by
  obtain ⟨name, meshes⟩ := e
  simp only [encEntry, decEntry, List.append_assoc,
    Option.bind_eq_bind, Option.some_bind, decStr_encStr,
    decList_enc encRecord decRecord decRecord_encRecord]
  rfl

/-- The codec round-trips every cache value. -/
theorem loadCache_saveCache (c : List CacheEntry) :
    loadCache (saveCache c) = some c := by
  have h := decList_enc encEntry decEntry decEntry_encEntry c []
  rw [List.append_nil] at h
  unfold loadCache saveCache
  rw [h]

/-! ## Face-assembly characterization -/

/-- Plain grouping of a list into consecutive triples, dropping a
trailing partial group (the spec's description of face assembly). -/
def chunks3 : List Nat → List (Nat × Nat × Nat)
  | a :: b :: c :: t => (a, b, c) :: chunks3 t
  | _ => []

/-- The indexed-face loop groups into triples exactly when the index
count is divisible by 3, and raises `IndexError` otherwise. -/
theorem faces_from_indices_eq :
    ∀ l : List Nat,
      faces_from_indices l =
        if l.length % 3 = 0 then some (chunks3 l) else none
  | [] => by simp [faces_from_indices, chunks3]
  | [a] => by simp [faces_from_indices, chunks3]
  | [a, b] => by simp [faces_from_indices, chunks3]
  | a :: b :: c :: t => by
    have ih := faces_from_indices_eq t
    have h3 : (t.length + 1 + 1 + 1) % 3 = t.length % 3 := by omega
    simp only [faces_from_indices, ih, chunks3, List.length_cons, h3]
    by_cases h : t.length % 3 = 0 <;> simp [h]

/-! ## Length lemmas for the decoders -/

theorem mapE_ok_length {α β : Type} (f : α → Except String β) :
    ∀ (l : List α) (r : List β), mapE f l = Except.ok r → r.length = l.length := by
  intro l
  induction l with
  | nil =>
    intro r h
    simp only [mapE] at h
    cases h
    rfl
  | cons a t ih =>
    intro r h
    simp only [mapE] at h
    cases hf : f a with
    | error e => rw [hf] at h; simp [Bind.bind, Except.bind] at h
    | ok b =>
      rw [hf] at h
      cases ht : mapE f t with
      | error e => rw [ht] at h; simp [Bind.bind, Except.bind] at h
      | ok rt =>
        rw [ht] at h
        simp only [Bind.bind, Except.bind] at h
        cases h
        simp [ih rt ht]

theorem decode_vec3_array_length (bd : Bytes) (off stride count : Nat)
    (l : List Vec3) (h : decode_vec3_array bd off stride count = Except.ok l) :
    l.length = count := by
  have := mapE_ok_length _ _ _ h
  simpa using this

theorem decode_vec2_array_length (bd : Bytes) (off stride count : Nat)
    (l : List Vec2) (h : decode_vec2_array bd off stride count = Except.ok l) :
    l.length = count := by
  have := mapE_ok_length _ _ _ h
  simpa using this


/-! ## The UV-count invariant -/

/-- The UV list of a primitive is empty or has exactly `count`
entries. -/
theorem decode_prim_uvs_length (doc : GltfDocument) (bd : Bytes)
    (texcoord : Option Nat) (count : Nat) (uvs : List Vec2)
    (h : decode_prim_uvs doc bd texcoord count = Except.ok uvs) :
    uvs = [] ∨ uvs.length = count := by
  cases texcoord with
  | none =>
    simp only [decode_prim_uvs] at h
    cases h
    exact Or.inl rfl
  | some uvIdx =>
    simp only [decode_prim_uvs] at h
    cases h1 : listGetE doc.accessors uvIdx with
    | error e => rw [h1] at h; simp [Bind.bind, Except.bind] at h
    | ok uv_acc =>
      rw [h1] at h
      simp only [Bind.bind, Except.bind] at h
      cases h2 : listGetE doc.bufferViews uv_acc.bufferView with
      | error e => rw [h2] at h; simp at h
      | ok uv_view =>
        rw [h2] at h
        exact Or.inr (decode_vec2_array_length _ _ _ _ _ h)

/-- A record produced by `process_primitive` has either no UVs or
exactly one UV per vertex: both the position loop and the UV loop run
`count` (the POSITION accessor's count) iterations. -/
theorem process_primitive_uvs (env : Env) (doc : GltfDocument)
    (docDir tex_folder : FPath) (bd : Bytes)
    (nt : List (Nat × Transform)) (mesh_idx : Nat) (prim : Primitive)
    (rec : MeshRecord)
    (h : process_primitive env doc docDir tex_folder bd nt mesh_idx prim =
      Except.ok (some rec)) :
    rec.uvs = [] ∨ rec.uvs.length = rec.verts.length := by
  obtain ⟨⟨posKey, texKey⟩, indKey, matKey⟩ := prim
  cases posKey with
  | none => simp [process_primitive] at h
  | some posIdx =>
    simp only [process_primitive, Bind.bind, Except.bind] at h
    cases h1 : listGetE doc.accessors posIdx with
    | error e => simp only [h1] at h; exact Except.noConfusion h
    | ok pos_acc =>
      simp only [h1] at h
      cases h2 : listGetE doc.bufferViews pos_acc.bufferView with
      | error e => simp only [h2] at h; exact Except.noConfusion h
      | ok pos_view =>
        simp only [h2] at h
        cases h3 : decode_vec3_array bd
            (pos_view.byteOffset.getD 0 + pos_acc.byteOffset.getD 0)
            (pos_view.byteStride.getD 12) pos_acc.count with
        | error e => simp only [h3] at h; exact Except.noConfusion h
        | ok positions =>
          simp only [h3] at h
          have hpos := decode_vec3_array_length _ _ _ _ _ h3
          cases h4 : decode_prim_uvs doc bd texKey pos_acc.count with
          | error e => simp only [h4] at h; exact Except.noConfusion h
          | ok uvs =>
            simp only [h4] at h
            have huv := decode_prim_uvs_length _ _ _ _ _ h4
            cases h5 : decode_prim_indices doc bd indKey with
            | error e => simp only [h5] at h; exact Except.noConfusion h
            | ok indices =>
              simp only [h5] at h
              cases h6 : assemble_faces indices positions.length with
              | error e => simp only [h6] at h; exact Except.noConfusion h
              | ok faces =>
                simp only [h6] at h
                cases h7 : find_texture_path env doc docDir tex_folder
                    ({ attributes := { POSITION := some posIdx, TEXCOORD_0 := texKey }
                       indices := indKey, material := matKey } : Primitive) with
                | error e => simp only [h7] at h; exact Except.noConfusion h
                | ok texture_path =>
                  simp only [h7, Except.ok.injEq, Option.some.injEq] at h
                  subst h
                  cases huv with
                  | inl he => exact Or.inl he
                  | inr hl => exact Or.inr (by simp [hl, hpos])

/-- The UV invariant holds for every record collected over a mesh's
primitives. -/
theorem process_primitives_uvs (env : Env) (doc : GltfDocument)
    (docDir tex_folder : FPath) (bd : Bytes)
    (nt : List (Nat × Transform)) (mesh_idx : Nat) :
    ∀ (prims : List Primitive) (rs : List MeshRecord),
      process_primitives env doc docDir tex_folder bd nt mesh_idx prims =
        Except.ok rs →
      ∀ r ∈ rs, r.uvs = [] ∨ r.uvs.length = r.verts.length := by
  intro prims
  induction prims with
  | nil =>
    intro rs h r hr
    simp only [process_primitives] at h
    cases h
    simp at hr
  | cons p t ih =>
    intro rs h r hr
    simp only [process_primitives, Bind.bind, Except.bind] at h
    cases h1 : process_primitive env doc docDir tex_folder bd nt mesh_idx p with
    | error e => simp only [h1] at h; exact Except.noConfusion h
    | ok hd =>
      simp only [h1] at h
      cases h2 : process_primitives env doc docDir tex_folder bd nt mesh_idx t with
      | error e => simp only [h2] at h; exact Except.noConfusion h
      | ok rest =>
        simp only [h2, Except.ok.injEq] at h
        subst h
        cases hd with
        | none => exact ih rest h2 r hr
        | some rec =>
          cases hr with
          | head => exact process_primitive_uvs _ _ _ _ _ _ _ _ _ h1
          | tail _ hmem => exact ih rest h2 r hmem

/-- The UV invariant holds for every record collected over all
meshes. -/
theorem process_meshes_uvs (env : Env) (doc : GltfDocument)
    (docDir tex_folder : FPath) (bd : Bytes)
    (nt : List (Nat × Transform)) :
    ∀ (meshes : List Mesh) (mesh_idx : Nat) (rs : List MeshRecord),
      process_meshes env doc docDir tex_folder bd nt mesh_idx meshes =
        Except.ok rs →
      ∀ r ∈ rs, r.uvs = [] ∨ r.uvs.length = r.verts.length := by
  intro meshes
  induction meshes with
  | nil =>
    intro mesh_idx rs h r hr
    simp only [process_meshes] at h
    cases h
    simp at hr
  | cons m t ih =>
    intro mesh_idx rs h r hr
    simp only [process_meshes, Bind.bind, Except.bind] at h
    cases h1 : process_primitives env doc docDir tex_folder bd nt mesh_idx m.primitives with
    | error e => simp only [h1] at h; exact Except.noConfusion h
    | ok here =>
      simp only [h1] at h
      cases h2 : process_meshes env doc docDir tex_folder bd nt (mesh_idx + 1) t with
      | error e => simp only [h2] at h; exact Except.noConfusion h
      | ok rest =>
        simp only [h2, Except.ok.injEq] at h
        subst h
        rcases List.mem_append.mp hr with hmem | hmem
        · exact process_primitives_uvs _ _ _ _ _ _ _ _ _ h1 r hmem
        · exact ih (mesh_idx + 1) rest h2 r hmem

/-- C3 (amended): every MeshRecord of a produced cache entry
satisfies the UV half of the claimed invariant — whenever `uvs` is
non-empty, `len(uvs) = len(verts)`; the face-index half does not hold
(see the counterexample). -/
theorem preprocess_uvs (env : Env) (tex_folder gltf_path : FPath)
    (entry : CacheEntry)
    (h : preprocess_gltf_file env tex_folder gltf_path = some entry) :
    ∀ r ∈ entry.meshes, r.uvs = [] ∨ r.uvs.length = r.verts.length := by
  intro r hr
  unfold preprocess_gltf_file at h
  cases hb : preprocess_body env tex_folder gltf_path with
  | error e => rw [hb] at h; exact Option.noConfusion h
  | ok res =>
    rw [hb] at h
    subst h
    unfold preprocess_body at hb
    simp only [Bind.bind, Except.bind] at hb
    cases hdoc : env.docs.lookup gltf_path with
    | none => simp only [hdoc] at hb; exact Except.noConfusion hb
    | some od =>
      cases od with
      | none => simp only [hdoc] at hb; exact Except.noConfusion hb
      | some doc =>
        simp only [hdoc] at hb
        cases hbin : load_bin_data env gltf_path.dropLast (doc.buffers.getD []) with
        | none =>
          simp only [hbin, Except.ok.injEq] at hb
          exact Option.noConfusion hb
        | some bd =>
          simp only [hbin] at hb
          cases hemp : bd.isEmpty with
          | true => simp [hemp] at hb
          | false =>
            simp only [hemp, Bool.false_eq_true, if_false, Bind.bind, Except.bind] at hb
            cases hm : doc.meshes with
              | none =>
                simp only [hm, Except.ok.injEq] at hb
                exact Option.noConfusion hb
              | some meshes =>
                simp only [hm] at hb
                cases hpm : process_meshes env doc gltf_path.dropLast tex_folder bd
                    (build_node_transforms doc.nodes) 0 meshes with
                | error e => simp only [hpm] at hb; exact Except.noConfusion hb
                | ok recs =>
                  simp only [hpm, Except.ok.injEq, Option.some.injEq] at hb
                  subst hb
                  exact process_meshes_uvs _ _ _ _ _ _ _ _ _ hpm r hr

/-! ## Concrete documents used by the claim theorems -/

/-- Texture root directory used by all concrete scenarios. -/
def texRoot : FPath := ["textures"]

/-- Document directory used by all concrete scenarios. -/
def libDir : FPath := ["models"]

/-- A document with one non-indexed primitive of 4 positions. -/
def docFour : GltfDocument :=
  { buffers := some [{ uri := some "four.bin" }]
    bufferViews := [{ byteOffset := some 0, byteStride := none }]
    accessors := [{ bufferView := 0, byteOffset := none, count := 4, componentType := 5126 }]
    meshes := some [{ primitives :=
      [{ attributes := { POSITION := some 0, TEXCOORD_0 := none }
         indices := none, material := none }] }]
    nodes := none, materials := [], textures := [], images := [] }

def envFour : Env :=
  { docs := [(["models", "four.gltf"], some docFour)]
    bins := [(["models", "four.bin"], List.replicate 48 0)]
    texFiles := [] }

/-- A document with one indexed primitive: 3 positions, 4 indices
`[0, 1, 2, 0]` (componentType 5123) — a trailing partial triple. -/
def docIdxFour : GltfDocument :=
  { buffers := some [{ uri := some "partial.bin" }]
    bufferViews := [{ byteOffset := some 0, byteStride := none },
                    { byteOffset := some 36, byteStride := none }]
    accessors := [{ bufferView := 0, byteOffset := none, count := 3, componentType := 5126 },
                  { bufferView := 1, byteOffset := none, count := 4, componentType := 5123 }]
    meshes := some [{ primitives :=
      [{ attributes := { POSITION := some 0, TEXCOORD_0 := none }
         indices := some 1, material := none }] }]
    nodes := none, materials := [], textures := [], images := [] }

def envIdxFour : Env :=
  { docs := [(["models", "partial.gltf"], some docIdxFour)]
    bins := [(["models", "partial.bin"],
      List.replicate 36 0 ++ [0, 0, 1, 0, 2, 0, 0, 0])]
    texFiles := [] }

/-- A document with one indexed primitive: 3 positions, indices
`[0, 1, 5]` (componentType 5123) — index 5 out of range. -/
def docOutOfRange : GltfDocument :=
  { buffers := some [{ uri := some "oor.bin" }]
    bufferViews := [{ byteOffset := some 0, byteStride := none },
                    { byteOffset := some 36, byteStride := none }]
    accessors := [{ bufferView := 0, byteOffset := none, count := 3, componentType := 5126 },
                  { bufferView := 1, byteOffset := none, count := 3, componentType := 5123 }]
    meshes := some [{ primitives :=
      [{ attributes := { POSITION := some 0, TEXCOORD_0 := none }
         indices := some 1, material := none }] }]
    nodes := none, materials := [], textures := [], images := [] }

def envOutOfRange : Env :=
  { docs := [(["models", "oor.gltf"], some docOutOfRange)]
    bins := [(["models", "oor.bin"], List.replicate 36 0 ++ [0, 0, 1, 0, 5, 0])]
    texFiles := [] }

/-- A document whose index accessor uses componentType 5121
(UNSIGNED_BYTE), unsupported by the importer. -/
def docUByte : GltfDocument :=
  { buffers := some [{ uri := some "ubyte.bin" }]
    bufferViews := [{ byteOffset := some 0, byteStride := none },
                    { byteOffset := some 36, byteStride := none }]
    accessors := [{ bufferView := 0, byteOffset := none, count := 3, componentType := 5126 },
                  { bufferView := 1, byteOffset := none, count := 3, componentType := 5121 }]
    meshes := some [{ primitives :=
      [{ attributes := { POSITION := some 0, TEXCOORD_0 := none }
         indices := some 1, material := none }] }]
    nodes := none, materials := [], textures := [], images := [] }

def envUByte : Env :=
  { docs := [(["models", "ubyte.gltf"], some docUByte)]
    bins := [(["models", "ubyte.bin"], List.replicate 36 0 ++ [0, 1, 2])]
    texFiles := [] }

/-- A material whose base-color texture points at texture 0. -/
def matBct0 : Material :=
  { pbrMetallicRoughness := some { baseColorTexture := some { index := some 0 } } }

/-- A document whose material chain reaches a texture that has no
`source` key. -/
def docNoSource : GltfDocument :=
  { buffers := some [{ uri := some "nosrc.bin" }]
    bufferViews := [{ byteOffset := some 0, byteStride := none }]
    accessors := [{ bufferView := 0, byteOffset := none, count := 3, componentType := 5126 }]
    meshes := some [{ primitives :=
      [{ attributes := { POSITION := some 0, TEXCOORD_0 := none }
         indices := none, material := some 0 }] }]
    nodes := none
    materials := [matBct0]
    textures := [{ source := none }]
    images := [] }

def envNoSource : Env :=
  { docs := [(["models", "nosrc.gltf"], some docNoSource)]
    bins := [(["models", "nosrc.bin"], List.replicate 36 0)]
    texFiles := [] }

/-- A document whose material has no `baseColorTexture` (a soft
missing link). -/
def docSoft : GltfDocument :=
  { buffers := some [{ uri := some "soft.bin" }]
    bufferViews := [{ byteOffset := some 0, byteStride := none }]
    accessors := [{ bufferView := 0, byteOffset := none, count := 3, componentType := 5126 }]
    meshes := some [{ primitives :=
      [{ attributes := { POSITION := some 0, TEXCOORD_0 := none }
         indices := none, material := some 0 }] }]
    nodes := none
    materials := [{ pbrMetallicRoughness := some { baseColorTexture := none } }]
    textures := []
    images := [] }

def envSoft : Env :=
  { docs := [(["models", "soft.gltf"], some docSoft)]
    bins := [(["models", "soft.bin"], List.replicate 36 0)]
    texFiles := [] }

/-- A document whose material chain reaches an image that has no
`uri` key. -/
def docNoUri : GltfDocument :=
  { buffers := some [{ uri := some "nouri.bin" }]
    bufferViews := [{ byteOffset := some 0, byteStride := none }]
    accessors := [{ bufferView := 0, byteOffset := none, count := 3, componentType := 5126 }]
    meshes := some [{ primitives :=
      [{ attributes := { POSITION := some 0, TEXCOORD_0 := none }
         indices := none, material := some 0 }] }]
    nodes := none
    materials := [matBct0]
    textures := [{ source := some 0 }]
    images := [{ uri := none }] }

def envNoUri : Env :=
  { docs := [(["models", "nouri.gltf"], some docNoUri)]
    bins := [(["models", "nouri.bin"], List.replicate 36 0)]
    texFiles := [] }

/-- A document with a valid binary buffer and an empty `meshes`
array. -/
def docEmptyMeshes : GltfDocument :=
  { buffers := some [{ uri := some "empty.bin" }]
    bufferViews := []
    accessors := []
    meshes := some []
    nodes := none, materials := [], textures := [], images := [] }

def envEmptyMeshes : Env :=
  { docs := [(["models", "empty.gltf"], some docEmptyMeshes)]
    bins := [(["models", "empty.bin"], [0])]
    texFiles := [] }

/-- A document with no `meshes` key at all. -/
def docNoMeshes : GltfDocument :=
  { buffers := some [{ uri := some "nomesh.bin" }]
    bufferViews := []
    accessors := []
    meshes := none
    nodes := none, materials := [], textures := [], images := [] }

def envNoMeshes : Env :=
  { docs := [(["models", "nomesh.gltf"], some docNoMeshes)]
    bins := [(["models", "nomesh.bin"], [0])]
    texFiles := [] }

/-- A well-formed document with one non-indexed triangle. -/
def docTri : GltfDocument :=
  { buffers := some [{ uri := some "a.bin" }]
    bufferViews := [{ byteOffset := some 0, byteStride := none }]
    accessors := [{ bufferView := 0, byteOffset := none, count := 3, componentType := 5126 }]
    meshes := some [{ primitives :=
      [{ attributes := { POSITION := some 0, TEXCOORD_0 := none }
         indices := none, material := none }] }]
    nodes := none, materials := [], textures := [], images := [] }

/-- A batch directory holding one well-formed and one JSON-malformed
document. -/
def envBatch : Env :=
  { docs := [(["models", "a.gltf"], some docTri), (["models", "b.gltf"], none)]
    bins := [(["models", "a.bin"], List.replicate 36 0)]
    texFiles := [] }

/-- A document carrying a full material-texture chain with URI
`sub/tex.png`, and a primitive referencing it. -/
def docTex : GltfDocument :=
  { buffers := none
    bufferViews := []
    accessors := []
    meshes := none
    nodes := none
    materials := [matBct0]
    textures := [{ source := some 0 }]
    images := [{ uri := some "sub/tex.png" }] }

def primTex : Primitive :=
  { attributes := { POSITION := none, TEXCOORD_0 := none }
    indices := none, material := some 0 }

/-- All three texture candidates exist for URI `sub/tex.png`. -/
def envTex : Env :=
  { docs := [], bins := []
    texFiles := [["textures", "sub", "tex.png"], ["textures", "tex.png"],
                 ["models", "sub", "tex.png"]] }

/-- A document with 2 positions and a TEXCOORD_0 accessor of 2 UVs. -/
def docUv : GltfDocument :=
  { buffers := some [{ uri := some "uv.bin" }]
    bufferViews := [{ byteOffset := some 0, byteStride := none },
                    { byteOffset := some 24, byteStride := none }]
    accessors := [{ bufferView := 0, byteOffset := none, count := 2, componentType := 5126 },
                  { bufferView := 1, byteOffset := none, count := 2, componentType := 5126 }]
    meshes := some [{ primitives :=
      [{ attributes := { POSITION := some 0, TEXCOORD_0 := some 1 }
         indices := none, material := none }] }]
    nodes := none, materials := [], textures := [], images := [] }

def envUv : Env :=
  { docs := [(["models", "uv.gltf"], some docUv)]
    bins := [(["models", "uv.bin"], List.replicate 40 0)]
    texFiles := [] }

/-! ## Claim theorems -/

/-- The TRS input of the C1 analysis: translation (1,0,0), scale
(2,2,2), no rotation, no matrix. -/
def trsInput : Transform :=
  { matrix := none, translation := some (1, 0, 0), rotation := none
    scale := some (2, 2, 2) }

/-- C1: the spec requires a TRS node to resolve to `T * R * S` (scale
applied first).  `parse_transform` instead left-multiplies the present
parts in source order — translation, then rotation, then scale —
producing `S * R * T`.  At translation (1,0,0) with scale (2,2,2) the
code's result is `S·T` (translation column (2,0,0)), which differs
from the claimed `T·S` (translation column (1,0,0)). -/
theorem parse_transform_trs_order :
    parse_transform trsInput = (scaleMat 2 2 2).mul (translationMat 1 0 0) ∧
    parse_transform trsInput ≠ (translationMat 1 0 0).mul (scaleMat 2 2 2) := by
  constructor
  · simp only [parse_transform, trsInput, Mat4.mul, mat4Identity, scaleMat,
      translationMat, Mat4.mk.injEq]
    norm_num
  · intro h
    have h03 := congrArg Mat4.a03 h
    simp only [parse_transform, trsInput, Mat4.mul, mat4Identity, scaleMat,
      translationMat] at h03
    norm_num at h03

/-- A 16-value column-major matrix list used to witness C8. -/
def colMajorInput : List ℚ :=
  [1, 2, 3, 4, 5, 6, 7, 8, 9, 10, 11, 12, 13, 14, 15, 16]

/-- C8: a transform carrying a matrix resolves through
`matrixFromColumnMajor` alone (the 16 column-major values, transposed
to row-major), whatever its TRS fields hold; and a transform whose
only part is the identity quaternion (x=0, y=0, z=0, w=1) resolves to
the identity matrix. -/
theorem parse_transform_matrix_precedence :
    (∀ (t : Transform) (m : List ℚ), t.matrix = some m →
      parse_transform t = matrixFromColumnMajor m) ∧
    (∀ t : Transform, t.matrix = none → t.translation = none → t.scale = none →
      t.rotation = some (0, 0, 0, 1) → parse_transform t = mat4Identity) := by
  constructor
  · intro t m hm
    simp [parse_transform, hm]
  · intro t hm ht hs hr
    simp only [parse_transform, hm, ht, hs, hr]
    simp only [quatToMat4, Mat4.mul, mat4Identity, Mat4.mk.injEq]
    norm_num

/-- Witness for C8: a transform with both matrix and TRS parts uses
the matrix; a rotation-only identity quaternion gives the identity. -/
theorem parse_transform_matrix_precedence_witness :
    parse_transform { matrix := some colMajorInput, translation := some (5, 5, 5)
                      rotation := some (1, 0, 0, 0), scale := some (3, 3, 3) } =
      matrixFromColumnMajor colMajorInput ∧
    parse_transform { matrix := none, translation := none
                      rotation := some (0, 0, 0, 1), scale := none } = mat4Identity :=
  ⟨parse_transform_matrix_precedence.1 _ colMajorInput rfl,
   parse_transform_matrix_precedence.2 _ rfl rfl rfl rfl⟩

/-- C2 counterexample: a non-indexed primitive with 4 positions keeps
the trailing partial group — the faces are `[(0,1,2),(3,4,5)]`, not
`[(0,1,2)]` as the claim's "trailing partial group discarded"
predicts. -/
theorem faces_trailing_group_kept :
    (preprocess_gltf_file envFour texRoot ["models", "four.gltf"]).map
        (fun e => e.meshes.map (fun r => r.faces)) =
      some [[(0, 1, 2), (3, 4, 5)]] ∧
    (preprocess_gltf_file envFour texRoot ["models", "four.gltf"]).map
        (fun e => e.meshes.map (fun r => r.faces)) ≠ some [[(0, 1, 2)]] := by
  constructor
  · rfl
  · decide

/-- C2 (amended): a non-empty decoded index list is grouped into
consecutive triples when its length is divisible by 3 and otherwise
raises `IndexError` (which the per-document handler turns into "no
CacheEntry for the document", as the `envIdxFour` conjunct shows); an
empty index list (absent accessor, zero count or unsupported
componentType) synthesizes `(3k, 3k+1, 3k+2)` triples from the
position count, the last triple included even when partial. -/
theorem assemble_faces_spec :
    (∀ (indices : List Nat) (n : Nat),
      assemble_faces indices n =
        if indices.isEmpty then Except.ok (synthesized_faces n)
        else if indices.length % 3 = 0 then Except.ok (chunks3 indices)
        else Except.error "IndexError") ∧
    preprocess_gltf_file envIdxFour texRoot ["models", "partial.gltf"] = none := by
  constructor
  · intro indices n
    unfold assemble_faces
    cases he : indices.isEmpty with
    | true => simp [he]
    | false =>
      rw [faces_from_indices_eq]
      by_cases h3 : indices.length % 3 = 0 <;> simp [he, h3]
  · rfl

/-- C3 counterexample: an indexed primitive whose stored indices are
`[0, 1, 5]` over 3 vertices produces a record whose face `(0, 1, 5)`
references vertex 5 with only 3 vertices — the claimed invariant
"every face index < len(verts)" does not hold. -/
theorem face_index_out_of_range :
    (preprocess_gltf_file envOutOfRange texRoot ["models", "oor.gltf"]).map
        (fun e => e.meshes.map (fun r => (r.verts.length, r.faces))) =
      some [(3, [(0, 1, 5)])] ∧
    ¬ (5 < 3) := by
  constructor
  · rfl
  · decide

/-- The record produced by the `envUv` document. -/
def uvRec : MeshRecord :=
  { verts := List.replicate 2 (0, 0, 0), faces := [(0, 1, 2)]
    uvs := List.replicate 2 (0, 0), texture_path := none
    transform := Transform.empty }

/-- The cache entry produced by the `envUv` document. -/
def uvEntry : CacheEntry := { name := "uv", meshes := [uvRec] }

/-- Witness for C3 (amended): applied to a concrete build with a
TEXCOORD_0 accessor. -/
theorem preprocess_uvs_witness :
    uvRec.uvs = [] ∨ uvRec.uvs.length = uvRec.verts.length :=
  preprocess_uvs envUv texRoot ["models", "uv.gltf"] uvEntry rfl uvRec
    (by decide)

/-- C4 counterexample: a primitive whose indices accessor has
componentType 5121 still produces a record, with faces `[(0,1,2)]`
synthesized from vertex order — neither of the claim's two policies
(no faces, or primitive dropped, or the document dropped) matches. -/
theorem unsupported_ctype_synthesizes :
    (preprocess_gltf_file envUByte texRoot ["models", "ubyte.gltf"]).map
        (fun e => e.meshes.map (fun r => r.faces)) = some [[(0, 1, 2)]] ∧
    (some [[(0, 1, 2)]] : Option (List (List (Nat × Nat × Nat)))) ≠ some [[]] ∧
    (some [[(0, 1, 2)]] : Option (List (List (Nat × Nat × Nat)))) ≠ some [] ∧
    (some [[(0, 1, 2)]] : Option (List (List (Nat × Nat × Nat)))) ≠ none := by
  refine ⟨rfl, by decide, by decide, by decide⟩

/-- C4 (amended): an indices accessor with a componentType other than
5123 or 5125 decodes to the empty index list, and an empty index list
makes face assembly synthesize vertex-order triples exactly as for a
non-indexed primitive. -/
theorem decode_indices_unsupported (bd : Bytes) (off cnt ctype : Nat)
    (h1 : ctype ≠ 5123) (h2 : ctype ≠ 5125) :
    decode_indices bd off cnt ctype = Except.ok [] ∧
    ∀ n, assemble_faces [] n = Except.ok (synthesized_faces n) := by
  refine ⟨?_, fun n => rfl⟩
  simp [decode_indices, h1, h2]

/-- Witness for C4 (amended): componentType 5121 (UNSIGNED_BYTE). -/
theorem decode_indices_unsupported_witness :
    decode_indices [0, 1, 2] 0 3 5121 = Except.ok [] ∧
    assemble_faces [] 9 = Except.ok (synthesized_faces 9) :=
  ⟨(decode_indices_unsupported [0, 1, 2] 0 3 5121 (by decide) (by decide)).1,
   (decode_indices_unsupported [0, 1, 2] 0 3 5121 (by decide) (by decide)).2 9⟩

/-- C5 counterexample: `docNoSource` has a complete chain up to a
texture whose `source` key is missing; the whole document is dropped
(no CacheEntry), instead of producing the record without a texture. -/
theorem missing_source_drops_document :
    ((docNoSource.textures.get? 0).map (fun t => t.source)) = some none ∧
    preprocess_gltf_file envNoSource texRoot ["models", "nosrc.gltf"] = none := by
  exact ⟨rfl, rfl⟩

/-- The record produced by the `envSoft` document. -/
def softRec : MeshRecord :=
  { verts := List.replicate 3 (0, 0, 0), faces := [(0, 1, 2)]
    uvs := [], texture_path := none, transform := Transform.empty }

/-- C5 (amended): a missing `primitive.material`, an out-of-range
material index, or an absent `baseColorTexture` (including an absent
`pbrMetallicRoughness`) yields "no texture" and the record is still
produced (the `envSoft` conjunct); but a texture without `source`
raises `KeyError` — and, as the `envNoUri` conjunct shows for the
analogous missing `uri`, a raising chain link drops the whole
document. -/
theorem texture_chain_links :
    (∀ (env : Env) (doc : GltfDocument) (docDir tf : FPath) (prim : Primitive),
      prim.material = none →
      find_texture_path env doc docDir tf prim = Except.ok none) ∧
    (∀ (env : Env) (doc : GltfDocument) (docDir tf : FPath) (prim : Primitive)
      (mIdx : Nat), prim.material = some mIdx →
      doc.materials.get? mIdx = none →
      find_texture_path env doc docDir tf prim = Except.ok none) ∧
    (∀ (env : Env) (doc : GltfDocument) (docDir tf : FPath) (prim : Primitive)
      (mIdx : Nat) (mat : Material), prim.material = some mIdx →
      doc.materials.get? mIdx = some mat →
      (mat.pbrMetallicRoughness.getD { baseColorTexture := none }).baseColorTexture = none →
      find_texture_path env doc docDir tf prim = Except.ok none) ∧
    (∀ (env : Env) (doc : GltfDocument) (docDir tf : FPath) (prim : Primitive)
      (mIdx : Nat) (mat : Material) (bct : TextureInfo) (tIdx : Nat) (tex : Texture),
      prim.material = some mIdx →
      doc.materials.get? mIdx = some mat →
      (mat.pbrMetallicRoughness.getD { baseColorTexture := none }).baseColorTexture = some bct →
      bct.index = some tIdx →
      doc.textures.get? tIdx = some tex →
      tex.source = none →
      find_texture_path env doc docDir tf prim = Except.error "KeyError") ∧
    preprocess_gltf_file envSoft texRoot ["models", "soft.gltf"] =
      some { name := "soft", meshes := [softRec] } ∧
    preprocess_gltf_file envNoUri texRoot ["models", "nouri.gltf"] = none := by
  refine ⟨?_, ?_, ?_, ?_, rfl, rfl⟩
  · intro env doc docDir tf prim h1
    unfold find_texture_path
    simp only [h1]
  · intro env doc docDir tf prim mIdx h1 h2
    unfold find_texture_path
    simp only [h1, h2]
  · intro env doc docDir tf prim mIdx mat h1 h2 h3
    unfold find_texture_path
    simp only [h1, h2, h3]
  · intro env doc docDir tf prim mIdx mat bct tIdx tex h1 h2 h3 h4 h5 h6
    unfold find_texture_path
    simp only [h1, h2, h3, h4, h5, h6]

/-- A primitive with no material reference. -/
def primNoMat : Primitive :=
  { attributes := { POSITION := none, TEXCOORD_0 := none }
    indices := none, material := none }

/-- A primitive referencing material 0. -/
def primMat0 : Primitive :=
  { attributes := { POSITION := none, TEXCOORD_0 := none }
    indices := none, material := some 0 }

/-- Witness for C5 (amended): a material-less primitive resolves to
no texture; a source-less texture raises. -/
theorem texture_chain_links_witness :
    find_texture_path envSoft docSoft libDir texRoot primNoMat = Except.ok none ∧
    find_texture_path envNoSource docNoSource libDir texRoot primMat0 =
      Except.error "KeyError" :=
  ⟨texture_chain_links.1 envSoft docSoft libDir texRoot primNoMat rfl,
   texture_chain_links.2.2.2.1 envNoSource docNoSource libDir texRoot primMat0
     0 matBct0 { index := some 0 } 0 { source := none } rfl rfl rfl rfl rfl rfl⟩

/-- C6 counterexample: a document with a valid buffer and `meshes: []`
produces a CacheEntry with an empty record list — the batch cache is
`[⟨"empty", []⟩]`, not `[]` as the claim predicts. -/
theorem empty_meshes_yields_entry :
    build_cache envEmptyMeshes libDir texRoot = [{ name := "empty", meshes := [] }] ∧
    build_cache envEmptyMeshes libDir texRoot ≠ [] := by
  constructor
  · rfl
  · decide

/-- C6 (amended): a document without a `meshes` key yields no
CacheEntry; but a document whose `meshes` array produces no record
(here: the empty array) still yields a CacheEntry, with an empty
record list — the `if data:` truthiness filter does not drop it
because the entry dict is non-empty. -/
theorem no_meshes_behaviour :
    (∀ (env : Env) (tf p : FPath) (doc : GltfDocument),
      env.docs.lookup p = some (some doc) → doc.meshes = none →
      preprocess_gltf_file env tf p = none) ∧
    (∀ (env : Env) (tf p : FPath) (doc : GltfDocument) (bd : Bytes),
      env.docs.lookup p = some (some doc) →
      load_bin_data env p.dropLast (doc.buffers.getD []) = some bd →
      bd.isEmpty = false → doc.meshes = some [] →
      preprocess_gltf_file env tf p =
        some { name := pathStem (pathName p), meshes := [] }) := by
  constructor
  · intro env tf p doc hdoc hm
    unfold preprocess_gltf_file preprocess_body
    simp only [hdoc, Bind.bind, Except.bind]
    cases hbin : load_bin_data env p.dropLast (doc.buffers.getD []) with
    | none => rfl
    | some bd =>
      cases hemp : bd.isEmpty with
      | true => simp [hemp]
      | false => simp [hemp, hm]
  · intro env tf p doc bd hdoc hbin hemp hm
    unfold preprocess_gltf_file preprocess_body
    simp only [hdoc, Bind.bind, Except.bind, hbin, hemp, hm]
    simp [process_meshes]

/-- Witness for C6 (amended): applied to the concrete no-meshes and
empty-meshes documents. -/
theorem no_meshes_behaviour_witness :
    preprocess_gltf_file envNoMeshes texRoot ["models", "nomesh.gltf"] = none ∧
    preprocess_gltf_file envEmptyMeshes texRoot ["models", "empty.gltf"] =
      some { name := "empty", meshes := [] } :=
  ⟨no_meshes_behaviour.1 envNoMeshes texRoot ["models", "nomesh.gltf"]
     docNoMeshes rfl rfl,
   no_meshes_behaviour.2 envEmptyMeshes texRoot ["models", "empty.gltf"]
     docEmptyMeshes [0] rfl rfl rfl rfl⟩

/-- What the spec describes: try the candidates in order and return
the first existing one. -/
def resolve_candidates (env : Env) (cands : List FPath) : Option FPath :=
  cands.find? env.fileExists

/-- C7: with a complete material-texture chain, the resolver returns
the first existing file among, in order, textureRoot/uri,
textureRoot/filename(uri), documentDir/uri; in particular with all
three candidates present for URI `sub/tex.png` it returns
`textureRoot/sub/tex.png`. -/
theorem find_texture_path_order :
    (∀ (env : Env) (doc : GltfDocument) (docDir tf : FPath) (prim : Primitive)
      (mIdx : Nat) (mat : Material) (bct : TextureInfo) (tIdx : Nat)
      (tex : Texture) (iIdx : Nat) (img : Image) (uri : String),
      prim.material = some mIdx →
      doc.materials.get? mIdx = some mat →
      (mat.pbrMetallicRoughness.getD { baseColorTexture := none }).baseColorTexture = some bct →
      bct.index = some tIdx →
      doc.textures.get? tIdx = some tex →
      tex.source = some iIdx →
      doc.images.get? iIdx = some img →
      img.uri = some uri →
      find_texture_path env doc docDir tf prim =
        Except.ok (resolve_candidates env
          [joinUri tf uri, tf ++ [uriName uri], joinUri docDir uri])) ∧
    find_texture_path envTex docTex libDir texRoot primTex =
      Except.ok (some ["textures", "sub", "tex.png"]) := by
  constructor
  · intro env doc docDir tf prim mIdx mat bct tIdx tex iIdx img uri
      h1 h2 h3 h4 h5 h6 h7 h8
    unfold find_texture_path
    simp only [h1, h2, h3, h4, h5, h6, h7, h8]
    simp only [resolve_candidates, List.find?]
    cases hA : env.fileExists (joinUri tf uri) <;>
      cases hB : env.fileExists (tf ++ [uriName uri]) <;>
      cases hC : env.fileExists (joinUri docDir uri) <;>
      simp [hA, hB, hC]
  · rfl

/-- Witness for C7: the all-three-candidates scenario; the first
candidate `textures/sub/tex.png` wins. -/
theorem find_texture_path_order_witness :
    find_texture_path envTex docTex libDir texRoot primTex =
      Except.ok (resolve_candidates envTex
        [joinUri texRoot "sub/tex.png", texRoot ++ [uriName "sub/tex.png"],
         joinUri libDir "sub/tex.png"]) :=
  find_texture_path_order.1 envTex docTex libDir texRoot primTex
    0 matBct0 { index := some 0 } 0 { source := some 0 } 0
    { uri := some "sub/tex.png" } "sub/tex.png" rfl rfl rfl rfl rfl rfl rfl rfl

/-- C9: the serialized cache round-trips: loading what `saveCache`
wrote for a built cache returns exactly the built cache,
field-for-field. -/
theorem buildCache_roundtrip (env : Env) (D T : FPath) :
    loadCache (saveCache (build_cache env D T)) = some (build_cache env D T) :=
  loadCache_saveCache (build_cache env D T)

/-- The record produced by the well-formed `a.gltf` batch document. -/
def triRec : MeshRecord :=
  { verts := List.replicate 3 (0, 0, 0), faces := [(0, 1, 2)]
    uvs := [], texture_path := none, transform := Transform.empty }

/-- C10: a document whose JSON fails to parse is caught and yields no
CacheEntry; the batch over one well-formed and one malformed document
yields exactly one CacheEntry (and `build_cache` is total — it cannot
raise). -/
theorem batch_failures_skipped :
    (∀ (env : Env) (tf p : FPath), env.docs.lookup p = some none →
      preprocess_gltf_file env tf p = none) ∧
    build_cache envBatch libDir texRoot = [{ name := "a", meshes := [triRec] }] ∧
    (build_cache envBatch libDir texRoot).length = 1 := by
  refine ⟨?_, rfl, rfl⟩
  intro env tf p h
  unfold preprocess_gltf_file preprocess_body
  simp only [h, Bind.bind, Except.bind]

/-- Witness for C10: the malformed `b.gltf` of the concrete batch is
skipped. -/
theorem batch_failures_skipped_witness :
    preprocess_gltf_file envBatch texRoot ["models", "b.gltf"] = none :=
  batch_failures_skipped.1 envBatch texRoot ["models", "b.gltf"] rfl
